import Mathlib

/-!
Vertex Shaders sample: Shape, the main loop and the inline vertex shader

A shallow embedding of `src/source/shape.cpp` and `src/source/main.cpp`.

* The OpenGL / GLFW context is an explicit `World` value threaded through every
  call.  Each call appends itself to `World.trace`; the calls whose effect the
  program depends on also update the modelled context state (buffer names,
  bindings, uploaded data stores, current program, error flags, issued draws).
* Values the environment returns (`glCreateProgram`, `glGetUniformLocation`,
  the timer reading of every frame, the trigonometric functions) are inputs,
  collected in `Env`.
* `float` and `double` values are exact rationals; the narrowing of a `double`
  to a `float` is explicit (`toFloat`).  `size_t`, `GLsizeiptr`, `GLsizei`,
  `GLuint` and `GLint` conversions are explicit (`toSizeT`, `wrapSigned`, ...).
* The trace holds the calls that `main` and `Shape` make themselves.  What GLFW
  does inside `glfwPollEvents` (it may invoke `resizeCallback`, whose only
  effect is `glViewport`) is not part of the trace and touches none of the
  modelled state.
* `Transform2D` and `Shader` are declared in headers that are not among the
  sources: `Transform2D` is modelled from the specification, and the `Shader`
  methods appear as calls in the trace only.
-/

namespace VertexShaders

/-! ## Machine integers -/

/-- Two's-complement reading of an integer in `w` bits (`w ≥ 1`). -/
def wrapSigned (w : Nat) (n : Int) : Int :=
  (n + 2 ^ (w - 1)) % 2 ^ w - 2 ^ (w - 1)

/-- Value of a `size_t` expression (64-bit unsigned arithmetic). -/
def toSizeT (n : Nat) : Nat := n % 2 ^ 64

/-- Conversion of a `size_t` to `GLsizeiptr` (64-bit signed). -/
def toGLsizeiptr (n : Nat) : Int := wrapSigned 64 (n : Int)

/-- Conversion of a `size_t` to `GLsizei` (32-bit signed). -/
def toGLsizei (n : Nat) : Int := wrapSigned 32 (n : Int)

/-- Conversion of a `GLint` to `GLuint` (32-bit unsigned). -/
def toGLuint (r : Int) : Nat := (r % 2 ^ 32).toNat

/-- Conversion of a `GLuint` to `GLint` (32-bit signed). -/
def toGLint (u : Nat) : Int := wrapSigned 32 (u : Int)

/-- The value of `sizeof(glm::vec2)`: two 32-bit floats. -/
def sizeofVec2 : Nat := 8

/-- The value of `sizeof(unsigned int)`. -/
def sizeofUInt : Nat := 4

/-- Largest element count of a `std::vector` whose elements take `elemSize`
bytes (`max_size()`, which is `PTRDIFF_MAX / sizeof(T)`). -/
def vectorMaxSize (elemSize : Nat) : Nat := (2 ^ 63 - 1) / elemSize

/-! ## Floating point -/

/-- Rounding of a rational to the nearest integer, ties going to the even
one. -/
def roundTiesToEven (x : ℚ) : Int :=
  if Int.fract x < 1 / 2 then ⌊x⌋
  else if 1 / 2 < Int.fract x then ⌊x⌋ + 1
  else if ⌊x⌋ % 2 = 0 then ⌊x⌋ else ⌊x⌋ + 1

/-- Conversion of a `double` to `float`: rounding to the nearest value with a
24-bit significand, ties to even, with the subnormal spacing 2^-149 below
2^-126.  Values beyond the `float` range, for which the conversion has no
finite result, are rounded with the same precision. -/
def toFloat (x : ℚ) : ℚ :=
  if x = 0 then 0
  else
    let e := max (Int.log 2 |x|) (-126)
    (roundTiesToEven (x / 2 ^ (e - 23)) : ℚ) * 2 ^ (e - 23)

/-! ## Vectors and matrices -/

/-- A `glm::vec2`. -/
structure Vec2 where
  x : ℚ
  y : ℚ
  deriving DecidableEq

/-- A `glm::vec3` / GLSL `vec3`. -/
structure Vec3 where
  x : ℚ
  y : ℚ
  z : ℚ
  deriving DecidableEq

/-- A GLSL `vec4`. -/
structure Vec4 where
  x : ℚ
  y : ℚ
  z : ℚ
  w : ℚ
  deriving DecidableEq

/-- A `glm::mat3` / GLSL `mat3`, stored by columns. -/
structure Mat3 where
  c0 : Vec3
  c1 : Vec3
  c2 : Vec3
  deriving DecidableEq

/-- Matrix times column vector. -/
def Mat3.mulVec (m : Mat3) (v : Vec3) : Vec3 :=
  ⟨m.c0.x * v.x + m.c1.x * v.y + m.c2.x * v.z,
   m.c0.y * v.x + m.c1.y * v.y + m.c2.y * v.z,
   m.c0.z * v.x + m.c1.z * v.y + m.c2.z * v.z⟩

/-- Matrix product `a * b`. -/
def Mat3.mul (a b : Mat3) : Mat3 :=
  ⟨a.mulVec b.c0, a.mulVec b.c1, a.mulVec b.c2⟩

/-! ## The modelled OpenGL / GLFW context -/

/-- Buffer binding targets. -/
inductive BufferTarget
  | GL_ARRAY_BUFFER
  | GL_ELEMENT_ARRAY_BUFFER
  deriving DecidableEq

/-- Buffer usage hints. -/
inductive Usage
  | GL_STREAM_DRAW
  | GL_STATIC_DRAW
  | GL_DYNAMIC_DRAW
  deriving DecidableEq

/-- Primitive modes. -/
inductive DrawMode
  | GL_POINTS
  | GL_LINES
  | GL_TRIANGLES
  deriving DecidableEq

/-- Component / index data types. -/
inductive DataType
  | GL_FLOAT
  | GL_UNSIGNED_SHORT
  | GL_UNSIGNED_INT
  deriving DecidableEq

/-- Shader stage kinds. -/
inductive ShaderStage
  | GL_VERTEX_SHADER
  | GL_FRAGMENT_SHADER
  deriving DecidableEq

/-- The two global `Shader` objects of `main.cpp`. -/
inductive ShaderObject
  | vertexShader
  | fragmentShader
  deriving DecidableEq

/-- Error flags a GL call can raise. -/
inductive GLError
  | GL_INVALID_VALUE
  | GL_INVALID_OPERATION
  deriving DecidableEq

/-- What a `glBufferData` call reads through its data pointer. -/
inductive BufferPayload
  | vec2s (data : List Vec2)
  | uints (data : List Nat)
  deriving DecidableEq

/-- The data store of a buffer object after `glBufferData`. -/
structure Upload where
  size : Int
  usage : Usage
  data : BufferPayload
  deriving DecidableEq

/-- A call made by the program, with its arguments and, for calls that return
a value, the value returned. -/
inductive Call
  | glfwInit
  | glfwCreateWindow (width height : Nat) (title : String)
  | glfwMakeContextCurrent
  | glfwSetFramebufferSizeCallback
  | glewInit
  | glGenBuffers (n : Nat) (name : Nat)
  | glBindBuffer (target : BufferTarget) (buffer : Nat)
  | glBufferData (target : BufferTarget) (size : Int) (data : BufferPayload) (usage : Usage)
  | glDeleteBuffers (n : Nat) (name : Nat)
  | glVertexAttribPointer (index : Nat) (size : Nat) (type : DataType) (normalized : Bool)
      (stride : Nat) (pointer : Nat)
  | glUniformMatrix3fv (location : Int) (count : Int) (transpose : Bool) (value : Mat3)
  | glEnableVertexAttribArray (index : Nat)
  | glDisableVertexAttribArray (index : Nat)
  | glDrawElements (mode : DrawMode) (count : Int) (type : DataType) (indices : Nat)
  | SetScale (s : ℚ)
  | SetPosition (p : Vec2)
  | Rotate (deltaAngle : ℚ)
  | GetMatrix (result : Mat3)
  | InitFromString (shader : ShaderObject) (code : String) (stage : ShaderStage)
  | InitFromFile (shader : ShaderObject) (path : String) (stage : ShaderStage)
  | AttachTo (shader : ShaderObject) (program : Nat)
  | glCreateProgram (result : Nat)
  | glLinkProgram (program : Nat)
  | glGetUniformLocation (program : Nat) (name : String) (result : Int)
  | glUseProgram (program : Nat)
  | glDeleteProgram (program : Nat)
  | glfwWindowShouldClose (result : Bool)
  | glfwGetTime (result : ℚ)
  | glfwSetTime (time : ℚ)
  | glClear (mask : Nat)
  | glClearColor (r g b a : ℚ)
  | glfwSwapBuffers
  | glfwPollEvents
  | glfwTerminate
  deriving DecidableEq

/-- The context state an indexed draw is issued in. -/
structure DrawRecord where
  program : Nat
  elementBuffer : Nat
  attribBuffer : Nat
  attribEnabled : Bool
  uniform : Option (Int × Mat3)
  mode : DrawMode
  count : Int
  deriving DecidableEq

/-- The modelled context. -/
structure World where
  /-- buffer names handed out by `glGenBuffers` and not yet deleted -/
  bufferNames : List Nat
  /-- buffer bound to `GL_ARRAY_BUFFER` -/
  arrayBinding : Nat
  /-- buffer bound to `GL_ELEMENT_ARRAY_BUFFER` -/
  elementBinding : Nat
  /-- data store uploaded to each buffer name -/
  uploads : Nat → Option Upload
  /-- buffer that vertex attribute 0 reads from -/
  attribBuffer : Nat
  /-- whether vertex attribute 0 is enabled -/
  attribEnabled : Bool
  /-- argument of the last `glUseProgram` -/
  currentProgram : Nat
  /-- last matrix written by `glUniformMatrix3fv`, with its location -/
  uniform : Option (Int × Mat3)
  /-- error flags raised so far -/
  errors : List GLError
  /-- draws issued so far -/
  draws : List DrawRecord
  /-- every call made so far, oldest first -/
  trace : List Call

/-- A context in which nothing has happened yet. -/
def World.initial : World :=
  { bufferNames := [], arrayBinding := 0, elementBinding := 0, uploads := fun _ => none,
    attribBuffer := 0, attribEnabled := false, currentProgram := 0, uniform := none,
    errors := [], draws := [], trace := [] }

/-- Append a call to the trace. -/
def World.log (w : World) (c : Call) : World :=
  { w with trace := w.trace ++ [c] }

/-- The buffer bound to a target. -/
def World.binding (w : World) : BufferTarget → Nat
  | .GL_ARRAY_BUFFER => w.arrayBinding
  | .GL_ELEMENT_ARRAY_BUFFER => w.elementBinding

/-- A non-zero name that is not in `names`. -/
def freshName (names : List Nat) : Nat := names.foldr max 0 + 1

/-- Model of `glGenBuffers(1, &name)`: returns an unused non-zero name. -/
def glGenBuffers (w : World) : Nat × World :=
  let name := freshName w.bufferNames
  (name, { w.log (.glGenBuffers 1 name) with bufferNames := name :: w.bufferNames })

/-- Model of `glBindBuffer(target, buffer)`. -/
def glBindBuffer (target : BufferTarget) (buffer : Nat) (w : World) : World :=
  match target with
  | .GL_ARRAY_BUFFER => { w.log (.glBindBuffer target buffer) with arrayBinding := buffer }
  | .GL_ELEMENT_ARRAY_BUFFER =>
      { w.log (.glBindBuffer target buffer) with elementBinding := buffer }

/-- Model of `glBufferData(target, size, data, usage)`: replaces the data store
of the buffer bound to `target`; a negative size raises `GL_INVALID_VALUE` and
the reserved name 0 raises `GL_INVALID_OPERATION`, both without an upload. -/
def glBufferData (target : BufferTarget) (size : Int) (data : BufferPayload) (usage : Usage)
    (w : World) : World :=
  { w.log (.glBufferData target size data usage) with
    errors :=
      if size < 0 then w.errors ++ [.GL_INVALID_VALUE]
      else if w.binding target = 0 then w.errors ++ [.GL_INVALID_OPERATION]
      else w.errors
    uploads :=
      if size < 0 then w.uploads
      else if w.binding target = 0 then w.uploads
      else Function.update w.uploads (w.binding target) (some ⟨size, usage, data⟩) }

/-- Model of `glDeleteBuffers(1, &name)`. -/
def glDeleteBuffers (name : Nat) (w : World) : World :=
  { w.log (.glDeleteBuffers 1 name) with
    bufferNames := w.bufferNames.erase name
    uploads := Function.update w.uploads name none
    arrayBinding := if w.arrayBinding = name then 0 else w.arrayBinding
    elementBinding := if w.elementBinding = name then 0 else w.elementBinding }

/-- Model of `glVertexAttribPointer(0, ...)`: attribute 0 reads from the buffer
bound to `GL_ARRAY_BUFFER`. -/
def glVertexAttribPointer (index size : Nat) (type : DataType) (normalized : Bool)
    (stride pointer : Nat) (w : World) : World :=
  { w.log (.glVertexAttribPointer index size type normalized stride pointer) with
    attribBuffer := if index = 0 then w.arrayBinding else w.attribBuffer }

/-- Model of `glUniformMatrix3fv(location, count, transpose, value)`. -/
def glUniformMatrix3fv (location : Int) (count : Int) (transpose : Bool) (value : Mat3)
    (w : World) : World :=
  { w.log (.glUniformMatrix3fv location count transpose value) with
    uniform := some (location, value) }

/-- Model of `glEnableVertexAttribArray(index)`. -/
def glEnableVertexAttribArray (index : Nat) (w : World) : World :=
  { w.log (.glEnableVertexAttribArray index) with
    attribEnabled := if index = 0 then true else w.attribEnabled }

/-- Model of `glDisableVertexAttribArray(index)`. -/
def glDisableVertexAttribArray (index : Nat) (w : World) : World :=
  { w.log (.glDisableVertexAttribArray index) with
    attribEnabled := if index = 0 then false else w.attribEnabled }

/-- Model of `glDrawElements(mode, count, type, indices)`: a negative count
raises `GL_INVALID_VALUE` and draws nothing; otherwise one draw is issued in
the current context state. -/
def glDrawElements (mode : DrawMode) (count : Int) (type : DataType) (indices : Nat)
    (w : World) : World :=
  { w.log (.glDrawElements mode count type indices) with
    errors := if count < 0 then w.errors ++ [.GL_INVALID_VALUE] else w.errors
    draws :=
      if count < 0 then w.draws
      else w.draws ++
        [⟨w.currentProgram, w.elementBinding, w.attribBuffer, w.attribEnabled, w.uniform,
          mode, count⟩] }

/-- Model of `glUseProgram(program)`. -/
def glUseProgram (program : Nat) (w : World) : World :=
  { w.log (.glUseProgram program) with currentProgram := program }

/-! ## shape.cpp -/

/-- The data members of `Shape`. -/
structure Shape where
  m_vertices : List Vec2
  m_indices : List Nat
  m_vertexBuffer : Nat
  m_indexBuffer : Nat

/-- The constructor `Shape::Shape(vertices, indices)`.  The data pointers
`&vertices[0]` and `&indices[0]` are modelled by the vector contents, which is
what `glBufferData` reads through them for the sizes passed. -/
def Shape.ctor (vertices : List Vec2) (indices : List Nat) (w : World) : Shape × World :=
  let (vertexBuffer, w) := glGenBuffers w
  let w := glBindBuffer .GL_ARRAY_BUFFER vertexBuffer w
  let w := glBufferData .GL_ARRAY_BUFFER
    (toGLsizeiptr (toSizeT (toSizeT vertices.length * sizeofVec2))) (.vec2s vertices)
    .GL_STATIC_DRAW w
  let w := glBindBuffer .GL_ARRAY_BUFFER 0 w
  let (indexBuffer, w) := glGenBuffers w
  let w := glBindBuffer .GL_ARRAY_BUFFER indexBuffer w
  let w := glBufferData .GL_ARRAY_BUFFER
    (toGLsizeiptr (toSizeT (toSizeT indices.length * sizeofUInt))) (.uints indices)
    .GL_STATIC_DRAW w
  let w := glBindBuffer .GL_ARRAY_BUFFER 0 w
  ({ m_vertices := vertices, m_indices := indices,
     m_vertexBuffer := vertexBuffer, m_indexBuffer := indexBuffer }, w)

/-- The destructor `Shape::~Shape()`. -/
def Shape.dtor (s : Shape) (w : World) : World :=
  glDeleteBuffers s.m_indexBuffer (glDeleteBuffers s.m_vertexBuffer w)

/-- The method `Shape::Draw(worldMatrix, uniformLocation)`; `uniformLocation` is
a `GLuint`, converted to the `GLint` parameter of `glUniformMatrix3fv`, and
`m_indices.size()` is converted to the `GLsizei` parameter of `glDrawElements`.
The method assigns no data member, so only the context is returned. -/
def Shape.Draw (s : Shape) (worldMatrix : Mat3) (uniformLocation : Nat) (w : World) : World :=
  let w := glBindBuffer .GL_ARRAY_BUFFER s.m_vertexBuffer w
  let w := glVertexAttribPointer 0 2 .GL_FLOAT false 0 0 w
  let w := glBindBuffer .GL_ARRAY_BUFFER 0 w
  let w := glUniformMatrix3fv (toGLint uniformLocation) 1 false worldMatrix w
  let w := glBindBuffer .GL_ELEMENT_ARRAY_BUFFER s.m_indexBuffer w
  let w := glEnableVertexAttribArray 0 w
  let w := glDrawElements .GL_TRIANGLES (toGLsizei (toSizeT s.m_indices.length))
    .GL_UNSIGNED_INT 0 w
  let w := glDisableVertexAttribArray 0 w
  let w := glBindBuffer .GL_ELEMENT_ARRAY_BUFFER 0 w
  w

/-- The calls `Shape::Draw` makes, in order. -/
def Shape.drawCalls (s : Shape) (worldMatrix : Mat3) (uniformLocation : Nat) : List Call :=
  [ .glBindBuffer .GL_ARRAY_BUFFER s.m_vertexBuffer,
    .glVertexAttribPointer 0 2 .GL_FLOAT false 0 0,
    .glBindBuffer .GL_ARRAY_BUFFER 0,
    .glUniformMatrix3fv (toGLint uniformLocation) 1 false worldMatrix,
    .glBindBuffer .GL_ELEMENT_ARRAY_BUFFER s.m_indexBuffer,
    .glEnableVertexAttribArray 0,
    .glDrawElements .GL_TRIANGLES (toGLsizei (toSizeT s.m_indices.length)) .GL_UNSIGNED_INT 0,
    .glDisableVertexAttribArray 0,
    .glBindBuffer .GL_ELEMENT_ARRAY_BUFFER 0 ]

/-- The command sequence the specification gives for `Shape::Draw(M, L)`: the
draw count is the number of indices and the uniform location is `L`. -/
def Shape.specDrawCalls (s : Shape) (M : Mat3) (L : Int) : List Call :=
  [ .glBindBuffer .GL_ARRAY_BUFFER s.m_vertexBuffer,
    .glVertexAttribPointer 0 2 .GL_FLOAT false 0 0,
    .glBindBuffer .GL_ARRAY_BUFFER 0,
    .glUniformMatrix3fv L 1 false M,
    .glBindBuffer .GL_ELEMENT_ARRAY_BUFFER s.m_indexBuffer,
    .glEnableVertexAttribArray 0,
    .glDrawElements .GL_TRIANGLES (s.m_indices.length : Int) .GL_UNSIGNED_INT 0,
    .glDisableVertexAttribArray 0,
    .glBindBuffer .GL_ELEMENT_ARRAY_BUFFER 0 ]

/-- A shape whose index list has 2^31 entries. -/
def manyIndices : Shape :=
  { m_vertices := [⟨0, 0⟩], m_indices := List.replicate (2 ^ 31) 0,
    m_vertexBuffer := 1, m_indexBuffer := 2 }

/-- The identity matrix. -/
def Mat3.identity : Mat3 := ⟨⟨1, 0, 0⟩, ⟨0, 1, 0⟩, ⟨0, 0, 1⟩⟩

/-! ## transform2d.h -/

/-- The cosine and sine functions the matrix computation uses. -/
structure Trig where
  cos : ℚ → ℚ
  sin : ℚ → ℚ

/-- Modelled from the spec: the data members of `Transform2D`, whose header and
implementation are not among the sources: a 2D position, a rotation angle in
radians and a scalar scale (main passes one float to `SetScale`). -/
structure Transform2D where
  position : Vec2
  rotation : ℚ
  scale : ℚ

/-- Modelled from the spec: `Transform2D::SetPosition(p)` stores the position. -/
def Transform2D.SetPosition (t : Transform2D) (p : Vec2) : Transform2D :=
  { t with position := p }

/-- Modelled from the spec: `Transform2D::SetScale(s)` stores the scale. -/
def Transform2D.SetScale (t : Transform2D) (s : ℚ) : Transform2D :=
  { t with scale := s }

/-- Modelled from the spec: `Transform2D::Rotate(deltaAngle)` adds `deltaAngle`
to the running total angle. -/
def Transform2D.Rotate (t : Transform2D) (deltaAngle : ℚ) : Transform2D :=
  { t with rotation := t.rotation + deltaAngle }

/-- Modelled from the spec: the translation matrix `translate(p)` in column-vector
convention. -/
def translate (p : Vec2) : Mat3 :=
  ⟨⟨1, 0, 0⟩, ⟨0, 1, 0⟩, ⟨p.x, p.y, 1⟩⟩

/-- Modelled from the spec: the rotation matrix `rotate(θ)` from the cosine `c`
and sine `s` of the angle. -/
def rotate (c s : ℚ) : Mat3 :=
  ⟨⟨c, s, 0⟩, ⟨-s, c, 0⟩, ⟨0, 0, 1⟩⟩

/-- Modelled from the spec: the uniform scale matrix `scale(s)`. -/
def scaleMatrix (s : ℚ) : Mat3 :=
  ⟨⟨s, 0, 0⟩, ⟨0, s, 0⟩, ⟨0, 0, 1⟩⟩

/-- Modelled from the spec: `Transform2D::GetMatrix()` returns
translation * rotation * scale. -/
def Transform2D.GetMatrix (t : Transform2D) (trig : Trig) : Mat3 :=
  (translate t.position).mul
    ((rotate (trig.cos t.rotation) (trig.sin t.rotation)).mul (scaleMatrix t.scale))

/-! ## main.cpp -/

/-- The vertices pushed in `main`, in push order. -/
def vertices : List Vec2 := [⟨-1, 1⟩, ⟨1, 1⟩, ⟨-1, -1⟩, ⟨1, -1⟩]

/-- The indices pushed in `main`, in push order. -/
def indices : List Nat := [0, 1, 2, 3, 2, 1]

/-- The string `vertexShaderCode` of `main`. -/
def vertexShaderCode : String :=
  "#version 400 core \n" ++
  "layout(location = 0) in vec2 in_position;" ++
  "uniform mat3 worldMatrix;" ++
  "void main(void)" ++
  "\x7b" ++
  "vec3 transformed = worldMatrix * vec3(in_position, 1);" ++
  "gl_Position = vec4(transformed, 1);" ++
  "\x7d"

/-- What the GLSL program in `vertexShaderCode` computes for one vertex: the
value written to `transformed` and the value written to `gl_Position`. -/
def vertexShaderMain (worldMatrix : Mat3) (in_position : Vec2) : Vec3 × Vec4 :=
  let transformed := worldMatrix.mulVec ⟨in_position.x, in_position.y, 1⟩
  (transformed, ⟨transformed.x, transformed.y, transformed.z, 1⟩)

/-- The value of `GL_COLOR_BUFFER_BIT`. -/
def GL_COLOR_BUFFER_BIT : Nat := 0x4000

/-- What the environment supplies to one run of `main`. -/
structure Env where
  /-- the cosine and sine used by `GetMatrix` -/
  trig : Trig
  /-- the default-constructed global `transform` -/
  transform : Transform2D
  /-- the value `glCreateProgram` returns -/
  program : Nat
  /-- the value `glGetUniformLocation` returns -/
  location : Int
  /-- the `double` that `glfwGetTime` returns in each frame before the window closes -/
  deltas : List ℚ

/-- The globals of `main.cpp` together with the context. -/
structure App where
  world : World
  square : Shape
  transform : Transform2D
  shaderProgram : Nat
  uniformLocation : Nat

/-- Append a call to the trace of the application's context. -/
def App.log (a : App) (c : Call) : App :=
  { a with world := a.world.log c }

/-- Lines 59-159 of `main`: everything before the main loop. -/
def mainSetup (env : Env) : App :=
  let w := World.initial
  let w := w.log .glfwInit
  let w := w.log (.glfwCreateWindow 800 600 "Vertex Shaders")
  let w := w.log .glfwMakeContextCurrent
  let w := w.log .glfwSetFramebufferSizeCallback
  let w := w.log .glewInit
  let (square, w) := Shape.ctor vertices indices w
  let transform := env.transform.SetScale (1 / 4)
  let w := w.log (.SetScale (1 / 4))
  let transform := transform.SetPosition ⟨1 / 4, 1 / 4⟩
  let w := w.log (.SetPosition ⟨1 / 4, 1 / 4⟩)
  let w := w.log (.InitFromString .vertexShader vertexShaderCode .GL_VERTEX_SHADER)
  let w := w.log (.InitFromFile .fragmentShader "../shaders/fragment.glsl" .GL_FRAGMENT_SHADER)
  let shaderProgram := env.program
  let w := w.log (.glCreateProgram shaderProgram)
  let w := w.log (.AttachTo .vertexShader shaderProgram)
  let w := w.log (.AttachTo .fragmentShader shaderProgram)
  let w := w.log (.glLinkProgram shaderProgram)
  let uniformLocation := toGLuint env.location
  let w := w.log (.glGetUniformLocation shaderProgram "worldMatrix" env.location)
  { world := w, square := square, transform := transform,
    shaderProgram := shaderProgram, uniformLocation := uniformLocation }

/-- Lines 166-197 of `main`: one iteration of the main loop, in which
`glfwGetTime` returns `reading`; `float dt = glfwGetTime()` narrows the
reading to `float`. -/
def loopBody (trig : Trig) (reading : ℚ) (a : App) : App :=
  let dt := toFloat reading
  let w := a.world.log (.glfwGetTime reading)
  let w := w.log (.glfwSetTime 0)
  let w := w.log (.glClear GL_COLOR_BUFFER_BIT)
  let w := w.log (.glClearColor 0 0 0 0)
  let transform := a.transform.Rotate dt
  let w := w.log (.Rotate dt)
  let w := glUseProgram a.shaderProgram w
  let worldMatrix := transform.GetMatrix trig
  let w := w.log (.GetMatrix worldMatrix)
  let w := a.square.Draw worldMatrix a.uniformLocation w
  let w := glUseProgram 0 w
  let w := w.log .glfwSwapBuffers
  let w := w.log .glfwPollEvents
  { a with world := w, transform := transform }

/-- The main loop: `glfwWindowShouldClose` returns false once per element of
the list of timer readings, then true. -/
def mainLoop (trig : Trig) : List ℚ → App → App
  | [], a => a.log (.glfwWindowShouldClose true)
  | dt :: rest, a =>
      mainLoop trig rest (loopBody trig dt (a.log (.glfwWindowShouldClose false)))

/-- Lines 201-213 of `main`: what follows the main loop, and the exit code. -/
def mainTeardown (a : App) : App × Int :=
  let w := a.world.log (.glDeleteProgram a.shaderProgram)
  let w := a.square.dtor w
  let w := w.log .glfwTerminate
  ({ a with world := w }, 0)

/-- The function `main`. -/
def main (env : Env) : App × Int :=
  mainTeardown (mainLoop env.trig env.deltas (mainSetup env))

/-- The calls one iteration of the main loop makes when it starts in state `a`
and the timer reads `reading`. -/
def frameCalls (trig : Trig) (a : App) (reading : ℚ) : List Call :=
  [ .glfwGetTime reading, .glfwSetTime 0, .glClear GL_COLOR_BUFFER_BIT,
    .glClearColor 0 0 0 0,
    .Rotate (toFloat reading), .glUseProgram a.shaderProgram,
    .GetMatrix ((a.transform.Rotate (toFloat reading)).GetMatrix trig) ] ++
  a.square.drawCalls ((a.transform.Rotate (toFloat reading)).GetMatrix trig)
    a.uniformLocation ++
  [ .glUseProgram 0, .glfwSwapBuffers, .glfwPollEvents ]

/-- The calls the main loop makes when it starts in state `a` and the timer
readings of its frames are the given list. -/
def loopCalls (trig : Trig) : App → List ℚ → List Call
  | _, [] => [.glfwWindowShouldClose true]
  | a, dt :: rest =>
      .glfwWindowShouldClose false :: frameCalls trig a dt ++
        loopCalls trig (loopBody trig dt (a.log (.glfwWindowShouldClose false))) rest

/-! ## Reading a trace -/

/-- The argument of a `Rotate` call. -/
def Call.rotateArg : Call → Option ℚ
  | .Rotate d => some d
  | _ => none

/-- The location argument of a `glUniformMatrix3fv` call. -/
def Call.uniformLocation : Call → Option Int
  | .glUniformMatrix3fv location _ _ _ => some location
  | _ => none

/-- Whether a call is `glBufferData`. -/
def Call.isBufferData : Call → Bool
  | .glBufferData _ _ _ _ => true
  | _ => false

/-- Whether a call is `glDrawElements`. -/
def Call.isDrawElements : Call → Bool
  | .glDrawElements _ _ _ _ => true
  | _ => false

/-- Whether a call is `glGetUniformLocation`. -/
def Call.isGetUniformLocation : Call → Bool
  | .glGetUniformLocation _ _ _ => true
  | _ => false

/-- Whether a call binds a buffer to `GL_ELEMENT_ARRAY_BUFFER`. -/
def Call.isElementBind : Call → Bool
  | .glBindBuffer .GL_ELEMENT_ARRAY_BUFFER _ => true
  | _ => false

/-- The program that is current after a trace, starting from program `p`. -/
def currentProgramAfter (p : Nat) : List Call → Nat
  | [] => p
  | .glUseProgram q :: rest => currentProgramAfter q rest
  | _ :: rest => currentProgramAfter p rest

/-- The timer readings in a trace, each with the call that follows it. -/
def timerReads : List Call → List (ℚ × Option Call)
  | [] => []
  | .glfwGetTime d :: rest => (d, rest.head?) :: timerReads rest
  | _ :: rest => timerReads rest

/-! ## Triangle lists -/

/-- A triangle given by its three corners. -/
structure Triangle where
  a : Vec2
  b : Vec2
  c : Vec2
  deriving DecidableEq

/-- Reading an index list as `GL_TRIANGLES`: consecutive triples, an incomplete
last triple being dropped. -/
def triangleList : List Nat → List (Nat × Nat × Nat)
  | i :: j :: k :: rest => (i, j, k) :: triangleList rest
  | _ => []

/-- The triangle an index triple names in a vertex list, if all three lookups
succeed. -/
def assemble (vs : List Vec2) (t : Nat × Nat × Nat) : Option Triangle :=
  match vs[t.1]?, vs[t.2.1]?, vs[t.2.2]? with
  | some a, some b, some c => some ⟨a, b, c⟩
  | _, _, _ => none

/-- Twice the signed area of the triangle `a b p`. -/
def edgeFunction (a b p : Vec2) : ℚ :=
  (b.x - a.x) * (p.y - a.y) - (b.y - a.y) * (p.x - a.x)

/-- The point lies in the closed triangle. -/
def Triangle.contains (t : Triangle) (p : Vec2) : Prop :=
  (0 ≤ edgeFunction t.a t.b p ∧ 0 ≤ edgeFunction t.b t.c p ∧ 0 ≤ edgeFunction t.c t.a p) ∨
  (edgeFunction t.a t.b p ≤ 0 ∧ edgeFunction t.b t.c p ≤ 0 ∧ edgeFunction t.c t.a p ≤ 0)

/-- The point lies in the interior of the triangle. -/
def Triangle.interior (t : Triangle) (p : Vec2) : Prop :=
  (0 < edgeFunction t.a t.b p ∧ 0 < edgeFunction t.b t.c p ∧ 0 < edgeFunction t.c t.a p) ∨
  (edgeFunction t.a t.b p < 0 ∧ edgeFunction t.b t.c p < 0 ∧ edgeFunction t.c t.a p < 0)

/-- The area of the triangle. -/
def Triangle.area (t : Triangle) : ℚ :=
  |edgeFunction t.a t.b t.c| / 2

/-- The point lies in the closed square [-1,1] x [-1,1]. -/
def inSquare (p : Vec2) : Prop :=
  -1 ≤ p.x ∧ p.x ≤ 1 ∧ -1 ≤ p.y ∧ p.y ≤ 1

instance (t : Triangle) (p : Vec2) : Decidable (t.contains p) := by
  unfold Triangle.contains; infer_instance

instance (t : Triangle) (p : Vec2) : Decidable (t.interior p) := by
  unfold Triangle.interior; infer_instance

instance (p : Vec2) : Decidable (inSquare p) := by
  unfold inSquare; infer_instance

/-- The first triangle of the square: vertices 0, 1, 2. -/
def upperLeft : Triangle := ⟨⟨-1, 1⟩, ⟨1, 1⟩, ⟨-1, -1⟩⟩

/-- The second triangle of the square: vertices 3, 2, 1. -/
def lowerRight : Triangle := ⟨⟨1, -1⟩, ⟨-1, -1⟩, ⟨1, 1⟩⟩

/-- An environment whose default transform sits at the origin with angle 0 and
scale 1, whose trigonometric functions are exact at 0, and whose loop runs two
frames. -/
def sampleEnv : Env :=
  { trig := ⟨fun a => if a = 0 then 1 else 0, fun _ => 0⟩,
    transform := ⟨⟨0, 0⟩, 0, 1⟩, program := 3, location := -1, deltas := [1, 2] }

/-! ## Shared lemmas -/

theorem freshName_gt (names : List Nat) : ∀ n ∈ names, n < freshName names := by
  induction names with
  | nil => intro n hn; cases hn
  | cons a t ih =>
    intro n hn
    simp only [freshName, List.foldr_cons] at ih ⊢
    rcases List.mem_cons.mp hn with h | h
    · subst h; omega
    · have := ih n h; omega

theorem freshName_pos (names : List Nat) : freshName names ≠ 0 := by
  simp [freshName]

theorem freshName_cons_ne (names : List Nat) :
    freshName (freshName names :: names) ≠ freshName names := by
  have := freshName_gt (freshName names :: names) (freshName names) (List.mem_cons_self _ _)
  omega

theorem toGLsizeiptr_small (n : Nat) (h : n < 2 ^ 63) : toGLsizeiptr (toSizeT n) = (n : Int) := by
  unfold toGLsizeiptr toSizeT wrapSigned
  have h1 : n % 2 ^ 64 = n := Nat.mod_eq_of_lt (by omega)
  rw [h1]
  omega

theorem vectorMaxSize_bound (len elemSize : Nat) (_h0 : 0 < elemSize)
    (h : len ≤ vectorMaxSize elemSize) : len * elemSize < 2 ^ 63 := by
  unfold vectorMaxSize at h
  have := Nat.div_mul_le_self (2 ^ 63 - 1) elemSize
  have h2 : len * elemSize ≤ (2 ^ 63 - 1) / elemSize * elemSize := Nat.mul_le_mul_right _ h
  omega

/-! ## Narrowing to float -/

theorem roundTiesToEven_near (x : ℚ) (z : Int) (h1 : (z : ℚ) - 1 / 2 < x)
    (h2 : x < (z : ℚ) + 1 / 2) : roundTiesToEven x = z := by
  unfold roundTiesToEven
  by_cases hz : (z : ℚ) ≤ x
  · have hf : ⌊x⌋ = z := Int.floor_eq_iff.mpr ⟨hz, by linarith⟩
    have hfr : Int.fract x < 1 / 2 := by
      rw [Int.fract, hf]; linarith
    rw [if_pos hfr, hf]
  · have hz' : x < z := not_le.mp hz
    have hf : ⌊x⌋ = z - 1 :=
      Int.floor_eq_iff.mpr ⟨by push_cast; linarith, by push_cast; linarith⟩
    have hfr : 1 / 2 < Int.fract x := by
      rw [Int.fract, hf]; push_cast; linarith
    rw [if_neg (not_lt.mpr hfr.le), if_pos hfr, hf]; ring

theorem log_two_eq (x : ℚ) (e : Int) (h1 : (2 : ℚ) ^ e ≤ x) (h2 : x < (2 : ℚ) ^ (e + 1)) :
    Int.log 2 x = e := by
  have hx : 0 < x := lt_of_lt_of_le (by positivity) h1
  apply le_antisymm
  · have := (Int.lt_zpow_iff_log_lt (b := 2) (by norm_num) hx).mp (by exact_mod_cast h2)
    omega
  · exact (Int.zpow_le_iff_le_log (b := 2) (by norm_num) hx).mp (by exact_mod_cast h1)

theorem toFloat_eq (x : ℚ) (e m : Int) (hx : x ≠ 0) (he : -126 ≤ e)
    (h1 : (2 : ℚ) ^ e ≤ |x|) (h2 : |x| < (2 : ℚ) ^ (e + 1))
    (hm1 : (m : ℚ) - 1 / 2 < x / 2 ^ (e - 23)) (hm2 : x / 2 ^ (e - 23) < (m : ℚ) + 1 / 2) :
    toFloat x = (m : ℚ) * 2 ^ (e - 23) := by
  unfold toFloat
  rw [if_neg hx]
  simp only [log_two_eq _ _ h1 h2, max_eq_left he, roundTiesToEven_near _ _ hm1 hm2]

theorem toFloat_tenth : toFloat (1 / 10) = 13421773 / 134217728 := by
  rw [toFloat_eq (1 / 10) (-4) 13421773 (by norm_num) (by norm_num)
    (by rw [abs_of_pos (by norm_num)]; norm_num) (by rw [abs_of_pos (by norm_num)]; norm_num)
    (by norm_num) (by norm_num)]
  norm_num

theorem toFloat_one : toFloat 1 = 1 := by
  rw [toFloat_eq 1 0 8388608 (by norm_num) (by norm_num)
    (by rw [abs_of_pos (by norm_num)]; norm_num) (by rw [abs_of_pos (by norm_num)]; norm_num)
    (by norm_num) (by norm_num)]
  norm_num

theorem toFloat_two : toFloat 2 = 2 := by
  rw [toFloat_eq 2 1 8388608 (by norm_num) (by norm_num)
    (by rw [abs_of_pos (by norm_num)]; norm_num) (by rw [abs_of_pos (by norm_num)]; norm_num)
    (by norm_num) (by norm_num)]
  norm_num

/-! ## Effect of each modelled call on the context -/

@[simp]
theorem binding_array (w : World) : w.binding .GL_ARRAY_BUFFER = w.arrayBinding := rfl

@[simp]
theorem binding_element (w : World) :
    w.binding .GL_ELEMENT_ARRAY_BUFFER = w.elementBinding := rfl

@[simp]
theorem log_effect (w : World) (c : Call) :
    (w.log c).trace = w.trace ++ [c] ∧ (w.log c).bufferNames = w.bufferNames ∧
    (w.log c).arrayBinding = w.arrayBinding ∧ (w.log c).elementBinding = w.elementBinding ∧
    (w.log c).uploads = w.uploads ∧ (w.log c).attribBuffer = w.attribBuffer ∧
    (w.log c).attribEnabled = w.attribEnabled ∧ (w.log c).currentProgram = w.currentProgram ∧
    (w.log c).uniform = w.uniform ∧ (w.log c).errors = w.errors ∧
    (w.log c).draws = w.draws :=
  ⟨rfl, rfl, rfl, rfl, rfl, rfl, rfl, rfl, rfl, rfl, rfl⟩

@[simp]
theorem glGenBuffers_effect (w : World) :
    (glGenBuffers w).1 = freshName w.bufferNames ∧
    (glGenBuffers w).2.trace = w.trace ++ [.glGenBuffers 1 (freshName w.bufferNames)] ∧
    (glGenBuffers w).2.bufferNames = freshName w.bufferNames :: w.bufferNames ∧
    (glGenBuffers w).2.arrayBinding = w.arrayBinding ∧
    (glGenBuffers w).2.elementBinding = w.elementBinding ∧
    (glGenBuffers w).2.uploads = w.uploads ∧
    (glGenBuffers w).2.attribBuffer = w.attribBuffer ∧
    (glGenBuffers w).2.attribEnabled = w.attribEnabled ∧
    (glGenBuffers w).2.currentProgram = w.currentProgram ∧
    (glGenBuffers w).2.uniform = w.uniform ∧ (glGenBuffers w).2.errors = w.errors ∧
    (glGenBuffers w).2.draws = w.draws :=
  ⟨rfl, rfl, rfl, rfl, rfl, rfl, rfl, rfl, rfl, rfl, rfl, rfl⟩

@[simp]
theorem glBindBuffer_array_effect (b : Nat) (w : World) :
    (glBindBuffer .GL_ARRAY_BUFFER b w).trace = w.trace ++ [.glBindBuffer .GL_ARRAY_BUFFER b] ∧
    (glBindBuffer .GL_ARRAY_BUFFER b w).bufferNames = w.bufferNames ∧
    (glBindBuffer .GL_ARRAY_BUFFER b w).arrayBinding = b ∧
    (glBindBuffer .GL_ARRAY_BUFFER b w).elementBinding = w.elementBinding ∧
    (glBindBuffer .GL_ARRAY_BUFFER b w).uploads = w.uploads ∧
    (glBindBuffer .GL_ARRAY_BUFFER b w).attribBuffer = w.attribBuffer ∧
    (glBindBuffer .GL_ARRAY_BUFFER b w).attribEnabled = w.attribEnabled ∧
    (glBindBuffer .GL_ARRAY_BUFFER b w).currentProgram = w.currentProgram ∧
    (glBindBuffer .GL_ARRAY_BUFFER b w).uniform = w.uniform ∧
    (glBindBuffer .GL_ARRAY_BUFFER b w).errors = w.errors ∧
    (glBindBuffer .GL_ARRAY_BUFFER b w).draws = w.draws :=
  ⟨rfl, rfl, rfl, rfl, rfl, rfl, rfl, rfl, rfl, rfl, rfl⟩

@[simp]
theorem glBindBuffer_element_effect (b : Nat) (w : World) :
    (glBindBuffer .GL_ELEMENT_ARRAY_BUFFER b w).trace
      = w.trace ++ [.glBindBuffer .GL_ELEMENT_ARRAY_BUFFER b] ∧
    (glBindBuffer .GL_ELEMENT_ARRAY_BUFFER b w).bufferNames = w.bufferNames ∧
    (glBindBuffer .GL_ELEMENT_ARRAY_BUFFER b w).arrayBinding = w.arrayBinding ∧
    (glBindBuffer .GL_ELEMENT_ARRAY_BUFFER b w).elementBinding = b ∧
    (glBindBuffer .GL_ELEMENT_ARRAY_BUFFER b w).uploads = w.uploads ∧
    (glBindBuffer .GL_ELEMENT_ARRAY_BUFFER b w).attribBuffer = w.attribBuffer ∧
    (glBindBuffer .GL_ELEMENT_ARRAY_BUFFER b w).attribEnabled = w.attribEnabled ∧
    (glBindBuffer .GL_ELEMENT_ARRAY_BUFFER b w).currentProgram = w.currentProgram ∧
    (glBindBuffer .GL_ELEMENT_ARRAY_BUFFER b w).uniform = w.uniform ∧
    (glBindBuffer .GL_ELEMENT_ARRAY_BUFFER b w).errors = w.errors ∧
    (glBindBuffer .GL_ELEMENT_ARRAY_BUFFER b w).draws = w.draws :=
  ⟨rfl, rfl, rfl, rfl, rfl, rfl, rfl, rfl, rfl, rfl, rfl⟩

@[simp]
theorem glBufferData_effect (t : BufferTarget) (size : Int) (d : BufferPayload)
    (u : Usage) (w : World) :
    (glBufferData t size d u w).trace = w.trace ++ [.glBufferData t size d u] ∧
    (glBufferData t size d u w).bufferNames = w.bufferNames ∧
    (glBufferData t size d u w).arrayBinding = w.arrayBinding ∧
    (glBufferData t size d u w).elementBinding = w.elementBinding ∧
    (glBufferData t size d u w).attribBuffer = w.attribBuffer ∧
    (glBufferData t size d u w).attribEnabled = w.attribEnabled ∧
    (glBufferData t size d u w).currentProgram = w.currentProgram ∧
    (glBufferData t size d u w).uniform = w.uniform ∧
    (glBufferData t size d u w).draws = w.draws :=
  ⟨rfl, rfl, rfl, rfl, rfl, rfl, rfl, rfl, rfl⟩

theorem glBufferData_uploads (t : BufferTarget) (size : Int) (d : BufferPayload)
    (u : Usage) (w : World) (hsize : 0 ≤ size) (hbound : w.binding t ≠ 0) :
    (glBufferData t size d u w).uploads
      = Function.update w.uploads (w.binding t) (some ⟨size, u, d⟩) ∧
    (glBufferData t size d u w).errors = w.errors := by
  have h : ¬ size < 0 := not_lt.mpr hsize
  simp only [glBufferData, if_neg h, if_neg hbound, and_self]

@[simp]
theorem glDeleteBuffers_effect (name : Nat) (w : World) :
    (glDeleteBuffers name w).trace = w.trace ++ [.glDeleteBuffers 1 name] ∧
    (glDeleteBuffers name w).uploads = Function.update w.uploads name none ∧
    (glDeleteBuffers name w).errors = w.errors ∧
    (glDeleteBuffers name w).draws = w.draws :=
  ⟨rfl, rfl, rfl, rfl⟩

@[simp]
theorem glVertexAttribPointer_effect (size : Nat) (type : DataType) (normalized : Bool)
    (stride pointer : Nat) (w : World) :
    (glVertexAttribPointer 0 size type normalized stride pointer w).trace
      = w.trace ++ [.glVertexAttribPointer 0 size type normalized stride pointer] ∧
    (glVertexAttribPointer 0 size type normalized stride pointer w).bufferNames
      = w.bufferNames ∧
    (glVertexAttribPointer 0 size type normalized stride pointer w).arrayBinding
      = w.arrayBinding ∧
    (glVertexAttribPointer 0 size type normalized stride pointer w).elementBinding
      = w.elementBinding ∧
    (glVertexAttribPointer 0 size type normalized stride pointer w).uploads = w.uploads ∧
    (glVertexAttribPointer 0 size type normalized stride pointer w).attribBuffer
      = w.arrayBinding ∧
    (glVertexAttribPointer 0 size type normalized stride pointer w).attribEnabled
      = w.attribEnabled ∧
    (glVertexAttribPointer 0 size type normalized stride pointer w).currentProgram
      = w.currentProgram ∧
    (glVertexAttribPointer 0 size type normalized stride pointer w).uniform = w.uniform ∧
    (glVertexAttribPointer 0 size type normalized stride pointer w).errors = w.errors ∧
    (glVertexAttribPointer 0 size type normalized stride pointer w).draws = w.draws :=
  ⟨rfl, rfl, rfl, rfl, rfl, rfl, rfl, rfl, rfl, rfl, rfl⟩

@[simp]
theorem glUniformMatrix3fv_effect (location count : Int) (transpose : Bool)
    (value : Mat3) (w : World) :
    (glUniformMatrix3fv location count transpose value w).trace
      = w.trace ++ [.glUniformMatrix3fv location count transpose value] ∧
    (glUniformMatrix3fv location count transpose value w).bufferNames = w.bufferNames ∧
    (glUniformMatrix3fv location count transpose value w).arrayBinding = w.arrayBinding ∧
    (glUniformMatrix3fv location count transpose value w).elementBinding = w.elementBinding ∧
    (glUniformMatrix3fv location count transpose value w).uploads = w.uploads ∧
    (glUniformMatrix3fv location count transpose value w).attribBuffer = w.attribBuffer ∧
    (glUniformMatrix3fv location count transpose value w).attribEnabled = w.attribEnabled ∧
    (glUniformMatrix3fv location count transpose value w).currentProgram = w.currentProgram ∧
    (glUniformMatrix3fv location count transpose value w).uniform = some (location, value) ∧
    (glUniformMatrix3fv location count transpose value w).errors = w.errors ∧
    (glUniformMatrix3fv location count transpose value w).draws = w.draws :=
  ⟨rfl, rfl, rfl, rfl, rfl, rfl, rfl, rfl, rfl, rfl, rfl⟩

@[simp]
theorem glEnableVertexAttribArray_effect (w : World) :
    (glEnableVertexAttribArray 0 w).trace = w.trace ++ [.glEnableVertexAttribArray 0] ∧
    (glEnableVertexAttribArray 0 w).bufferNames = w.bufferNames ∧
    (glEnableVertexAttribArray 0 w).arrayBinding = w.arrayBinding ∧
    (glEnableVertexAttribArray 0 w).elementBinding = w.elementBinding ∧
    (glEnableVertexAttribArray 0 w).uploads = w.uploads ∧
    (glEnableVertexAttribArray 0 w).attribBuffer = w.attribBuffer ∧
    (glEnableVertexAttribArray 0 w).attribEnabled = true ∧
    (glEnableVertexAttribArray 0 w).currentProgram = w.currentProgram ∧
    (glEnableVertexAttribArray 0 w).uniform = w.uniform ∧
    (glEnableVertexAttribArray 0 w).errors = w.errors ∧
    (glEnableVertexAttribArray 0 w).draws = w.draws :=
  ⟨rfl, rfl, rfl, rfl, rfl, rfl, rfl, rfl, rfl, rfl, rfl⟩

@[simp]
theorem glDisableVertexAttribArray_effect (w : World) :
    (glDisableVertexAttribArray 0 w).trace = w.trace ++ [.glDisableVertexAttribArray 0] ∧
    (glDisableVertexAttribArray 0 w).bufferNames = w.bufferNames ∧
    (glDisableVertexAttribArray 0 w).arrayBinding = w.arrayBinding ∧
    (glDisableVertexAttribArray 0 w).elementBinding = w.elementBinding ∧
    (glDisableVertexAttribArray 0 w).uploads = w.uploads ∧
    (glDisableVertexAttribArray 0 w).attribBuffer = w.attribBuffer ∧
    (glDisableVertexAttribArray 0 w).attribEnabled = false ∧
    (glDisableVertexAttribArray 0 w).currentProgram = w.currentProgram ∧
    (glDisableVertexAttribArray 0 w).uniform = w.uniform ∧
    (glDisableVertexAttribArray 0 w).errors = w.errors ∧
    (glDisableVertexAttribArray 0 w).draws = w.draws :=
  ⟨rfl, rfl, rfl, rfl, rfl, rfl, rfl, rfl, rfl, rfl, rfl⟩

@[simp]
theorem glDrawElements_effect (mode : DrawMode) (count : Int) (type : DataType)
    (indices : Nat) (w : World) :
    (glDrawElements mode count type indices w).trace
      = w.trace ++ [.glDrawElements mode count type indices] ∧
    (glDrawElements mode count type indices w).bufferNames = w.bufferNames ∧
    (glDrawElements mode count type indices w).arrayBinding = w.arrayBinding ∧
    (glDrawElements mode count type indices w).elementBinding = w.elementBinding ∧
    (glDrawElements mode count type indices w).uploads = w.uploads ∧
    (glDrawElements mode count type indices w).attribBuffer = w.attribBuffer ∧
    (glDrawElements mode count type indices w).attribEnabled = w.attribEnabled ∧
    (glDrawElements mode count type indices w).currentProgram = w.currentProgram ∧
    (glDrawElements mode count type indices w).uniform = w.uniform ∧
    (glDrawElements mode count type indices w).errors
      = (if count < 0 then w.errors ++ [.GL_INVALID_VALUE] else w.errors) ∧
    (glDrawElements mode count type indices w).draws
      = (if count < 0 then w.draws
         else w.draws ++ [⟨w.currentProgram, w.elementBinding, w.attribBuffer, w.attribEnabled,
                           w.uniform, mode, count⟩]) :=
  ⟨rfl, rfl, rfl, rfl, rfl, rfl, rfl, rfl, rfl, rfl, rfl⟩

@[simp]
theorem glUseProgram_effect (p : Nat) (w : World) :
    (glUseProgram p w).trace = w.trace ++ [.glUseProgram p] ∧
    (glUseProgram p w).bufferNames = w.bufferNames ∧
    (glUseProgram p w).arrayBinding = w.arrayBinding ∧
    (glUseProgram p w).elementBinding = w.elementBinding ∧
    (glUseProgram p w).uploads = w.uploads ∧
    (glUseProgram p w).attribBuffer = w.attribBuffer ∧
    (glUseProgram p w).attribEnabled = w.attribEnabled ∧
    (glUseProgram p w).currentProgram = p ∧
    (glUseProgram p w).uniform = w.uniform ∧
    (glUseProgram p w).errors = w.errors ∧
    (glUseProgram p w).draws = w.draws :=
  ⟨rfl, rfl, rfl, rfl, rfl, rfl, rfl, rfl, rfl, rfl, rfl⟩

/-! ## Shape construction -/

theorem ctor_fst (V : List Vec2) (I : List Nat) (w : World) :
    (Shape.ctor V I w).1 =
      { m_vertices := V, m_indices := I, m_vertexBuffer := freshName w.bufferNames,
        m_indexBuffer := freshName (freshName w.bufferNames :: w.bufferNames) } := by
  simp [Shape.ctor]

theorem ctor_trace (V : List Vec2) (I : List Nat) (w : World) :
    (Shape.ctor V I w).2.trace = w.trace ++
      [ .glGenBuffers 1 (Shape.ctor V I w).1.m_vertexBuffer,
        .glBindBuffer .GL_ARRAY_BUFFER (Shape.ctor V I w).1.m_vertexBuffer,
        .glBufferData .GL_ARRAY_BUFFER
          (toGLsizeiptr (toSizeT (toSizeT V.length * sizeofVec2))) (.vec2s V) .GL_STATIC_DRAW,
        .glBindBuffer .GL_ARRAY_BUFFER 0,
        .glGenBuffers 1 (Shape.ctor V I w).1.m_indexBuffer,
        .glBindBuffer .GL_ARRAY_BUFFER (Shape.ctor V I w).1.m_indexBuffer,
        .glBufferData .GL_ARRAY_BUFFER
          (toGLsizeiptr (toSizeT (toSizeT I.length * sizeofUInt))) (.uints I) .GL_STATIC_DRAW,
        .glBindBuffer .GL_ARRAY_BUFFER 0 ] := by
  simp [Shape.ctor]

theorem ctor_sizes (V : List Vec2) (I : List Nat)
    (hV : V.length ≤ vectorMaxSize sizeofVec2) (hI : I.length ≤ vectorMaxSize sizeofUInt) :
    toGLsizeiptr (toSizeT (toSizeT V.length * sizeofVec2)) = (V.length : Int) * 8 ∧
    toGLsizeiptr (toSizeT (toSizeT I.length * sizeofUInt)) = (I.length : Int) * 4 := by
  have hV8 : V.length * 8 < 2 ^ 63 := vectorMaxSize_bound _ 8 (by norm_num) hV
  have hI4 : I.length * 4 < 2 ^ 63 := vectorMaxSize_bound _ 4 (by norm_num) hI
  constructor
  · have : toSizeT V.length = V.length := Nat.mod_eq_of_lt (by omega)
    rw [this, sizeofVec2, toGLsizeiptr_small _ hV8]; push_cast; ring
  · have : toSizeT I.length = I.length := Nat.mod_eq_of_lt (by omega)
    rw [this, sizeofUInt, toGLsizeiptr_small _ hI4]; push_cast; ring

theorem ctor_uploads (V : List Vec2) (I : List Nat) (w : World)
    (hV : V.length ≤ vectorMaxSize sizeofVec2) (hI : I.length ≤ vectorMaxSize sizeofUInt) :
    (Shape.ctor V I w).2.uploads =
      Function.update
        (Function.update w.uploads (freshName w.bufferNames)
          (some ⟨(V.length : Int) * 8, .GL_STATIC_DRAW, .vec2s V⟩))
        (freshName (freshName w.bufferNames :: w.bufferNames))
        (some ⟨(I.length : Int) * 4, .GL_STATIC_DRAW, .uints I⟩) ∧
    (Shape.ctor V I w).2.errors = w.errors := by
  obtain ⟨e1, e2⟩ := ctor_sizes V I hV hI
  have n1 : (0 : Int) ≤ (V.length : Int) * 8 := by omega
  have n2 : (0 : Int) ≤ (I.length : Int) * 4 := by omega
  have f1 := freshName_pos w.bufferNames
  have f2 := freshName_pos (freshName w.bufferNames :: w.bufferNames)
  simp only [Shape.ctor, e1, e2]
  simp [glBufferData_uploads, n1, n2, f1, f2]

/-- C1: for every vertex list V and index list I a `std::vector` can hold,
after `Shape::Shape(V, I)` the buffer named by `m_vertexBuffer` holds an upload
of `|V| * 8` bytes and the buffer named by `m_indexBuffer` an upload of
`|I| * 4` bytes, both with usage `GL_STATIC_DRAW` and with the vector contents
as data, the two handles are distinct, no error flag is raised, and the stored
`m_vertices` and `m_indices` equal V and I. -/
theorem Shape_ctor_buffer_sizes (V : List Vec2) (I : List Nat) (w : World)
    (hV : V.length ≤ vectorMaxSize sizeofVec2) (hI : I.length ≤ vectorMaxSize sizeofUInt) :
    (Shape.ctor V I w).2.uploads (Shape.ctor V I w).1.m_vertexBuffer
        = some ⟨(V.length : Int) * 8, .GL_STATIC_DRAW, .vec2s V⟩ ∧
    (Shape.ctor V I w).2.uploads (Shape.ctor V I w).1.m_indexBuffer
        = some ⟨(I.length : Int) * 4, .GL_STATIC_DRAW, .uints I⟩ ∧
    (Shape.ctor V I w).1.m_vertexBuffer ≠ (Shape.ctor V I w).1.m_indexBuffer ∧
    (Shape.ctor V I w).2.errors = w.errors ∧
    (Shape.ctor V I w).1.m_vertices = V ∧ (Shape.ctor V I w).1.m_indices = I := by
  have hne := freshName_cons_ne w.bufferNames
  obtain ⟨hu, he⟩ := ctor_uploads V I w hV hI
  rw [hu, he, ctor_fst]
  refine ⟨?_, ?_, hne.symm, rfl, rfl, rfl⟩
  · simp [Function.update, hne.symm]
  · simp [Function.update]

/-- Witness for C1: the square of `main`, built in the initial context. -/
theorem Shape_ctor_buffer_sizes_witness :
    vertices.length ≤ vectorMaxSize sizeofVec2 ∧ indices.length ≤ vectorMaxSize sizeofUInt ∧
    (Shape.ctor vertices indices World.initial).2.uploads
        (Shape.ctor vertices indices World.initial).1.m_vertexBuffer
        = some ⟨32, .GL_STATIC_DRAW, .vec2s vertices⟩ ∧
    (Shape.ctor vertices indices World.initial).2.uploads
        (Shape.ctor vertices indices World.initial).1.m_indexBuffer
        = some ⟨24, .GL_STATIC_DRAW, .uints indices⟩ := by
  have hV : vertices.length ≤ vectorMaxSize sizeofVec2 := by
    simp [vertices, vectorMaxSize, sizeofVec2]
  have hI : indices.length ≤ vectorMaxSize sizeofUInt := by
    simp [indices, vectorMaxSize, sizeofUInt]
  have h := Shape_ctor_buffer_sizes vertices indices World.initial hV hI
  refine ⟨hV, hI, ?_, ?_⟩
  · simpa [vertices] using h.1
  · simpa [indices] using h.2.1

/-! ## Shape::Draw -/

theorem Draw_trace (s : Shape) (M : Mat3) (L : Nat) (w : World) :
    (s.Draw M L w).trace = w.trace ++ s.drawCalls M L := by
  simp [Shape.Draw, Shape.drawCalls]

theorem Draw_frame (s : Shape) (M : Mat3) (L : Nat) (w : World) :
    (s.Draw M L w).uploads = w.uploads ∧ (s.Draw M L w).bufferNames = w.bufferNames ∧
    (s.Draw M L w).currentProgram = w.currentProgram := by
  simp [Shape.Draw]

theorem toGLsizei_small (n : Nat) (h : n < 2 ^ 31) : toGLsizei (toSizeT n) = (n : Int) := by
  unfold toGLsizei toSizeT wrapSigned
  have h1 : n % 2 ^ 64 = n := Nat.mod_eq_of_lt (by omega)
  rw [h1]
  omega

/-- For an index list with fewer than 2^31 entries `Shape::Draw(M, L)` appends
to the trace exactly the nine commands of the specification, in order, with
draw count `|I|` and the matrix written, before the draw, to the location L
read as a `GLint`. -/
theorem Draw_calls_of_small_count (s : Shape) (M : Mat3) (L : Nat) (w : World)
    (hI : s.m_indices.length < 2 ^ 31) :
    (s.Draw M L w).trace = w.trace ++ s.specDrawCalls M (toGLint L) := by
  rw [Draw_trace]
  simp only [Shape.drawCalls, Shape.specDrawCalls, toGLsizei_small _ hI]

/-- C2: for a shape with 2^31 indices, `Shape::Draw` passes `glDrawElements` the
count -2147483648 instead of the 2147483648 indices the shape holds, so the
trace is not the sequence of the specification; the call raises
`GL_INVALID_VALUE` and no draw is issued.  The other eight commands are those
of the specification. -/
theorem Shape_Draw_count_wraps :
    (manyIndices.Draw Mat3.identity 0 World.initial).trace
      = World.initial.trace ++
        [ .glBindBuffer .GL_ARRAY_BUFFER 1,
          .glVertexAttribPointer 0 2 .GL_FLOAT false 0 0,
          .glBindBuffer .GL_ARRAY_BUFFER 0,
          .glUniformMatrix3fv 0 1 false Mat3.identity,
          .glBindBuffer .GL_ELEMENT_ARRAY_BUFFER 2,
          .glEnableVertexAttribArray 0,
          .glDrawElements .GL_TRIANGLES (-2147483648) .GL_UNSIGNED_INT 0,
          .glDisableVertexAttribArray 0,
          .glBindBuffer .GL_ELEMENT_ARRAY_BUFFER 0 ] ∧
    manyIndices.m_indices.length = 2147483648 ∧
    (manyIndices.Draw Mat3.identity 0 World.initial).trace
      ≠ World.initial.trace ++ manyIndices.specDrawCalls Mat3.identity 0 ∧
    (manyIndices.Draw Mat3.identity 0 World.initial).draws = [] ∧
    (manyIndices.Draw Mat3.identity 0 World.initial).errors = [.GL_INVALID_VALUE] := by
  have hlen : manyIndices.m_indices.length = 2 ^ 31 := by
    simp only [manyIndices, List.length_replicate]
  have hv : manyIndices.m_vertexBuffer = 1 := rfl
  have hi : manyIndices.m_indexBuffer = 2 := rfl
  have hc : toGLsizei (toSizeT manyIndices.m_indices.length) = -2147483648 := by
    rw [hlen]
    unfold toGLsizei toSizeT wrapSigned
    norm_num
  have hl : toGLint 0 = 0 := by unfold toGLint wrapSigned; norm_num
  have ht := Draw_trace manyIndices Mat3.identity 0 World.initial
  simp only [Shape.drawCalls, hc, hl, hv, hi] at ht
  refine ⟨ht, by rw [hlen]; norm_num, ?_, ?_, ?_⟩
  · rw [ht]
    simp only [Shape.specDrawCalls, hlen, hv, hi]
    intro h
    have h2 := List.append_cancel_left h
    simp only [List.cons.injEq, Call.glDrawElements.injEq] at h2
    have h3 := h2.2.2.2.2.2.2.1.2.1
    norm_num at h3
  · simp only [Shape.Draw, hc, hl, hv, hi]
    simp [World.initial]
  · simp only [Shape.Draw, hc, hl, hv, hi]
    simp [World.initial]

/-! ## The square mesh -/

theorem upperLeft_contains (x y : ℚ) :
    upperLeft.contains ⟨x, y⟩ ↔ (y ≤ 1 ∧ x ≤ y ∧ -1 ≤ x) := by
  simp only [Triangle.contains, edgeFunction, upperLeft]
  constructor
  · rintro (⟨h1, h2, h3⟩ | ⟨h1, h2, h3⟩)
    · norm_num at h1 h2 h3
      refine ⟨by linarith, by linarith, by linarith⟩
    · norm_num at h1 h2 h3
      refine ⟨by linarith, by linarith, by linarith⟩
  · rintro ⟨h1, h2, h3⟩
    right
    refine ⟨?_, ?_, ?_⟩ <;> norm_num <;> linarith

theorem lowerRight_contains (x y : ℚ) :
    lowerRight.contains ⟨x, y⟩ ↔ (-1 ≤ y ∧ y ≤ x ∧ x ≤ 1) := by
  simp only [Triangle.contains, edgeFunction, lowerRight]
  constructor
  · rintro (⟨h1, h2, h3⟩ | ⟨h1, h2, h3⟩)
    · norm_num at h1 h2 h3
      refine ⟨by linarith, by linarith, by linarith⟩
    · norm_num at h1 h2 h3
      refine ⟨by linarith, by linarith, by linarith⟩
  · rintro ⟨h1, h2, h3⟩
    right
    refine ⟨?_, ?_, ?_⟩ <;> norm_num <;> linarith

theorem upperLeft_interior (x y : ℚ) (h : upperLeft.interior ⟨x, y⟩) : x < y := by
  simp only [Triangle.interior, edgeFunction, upperLeft] at h
  rcases h with ⟨h1, h2, h3⟩ | ⟨h1, h2, h3⟩
  · norm_num at h1 h2 h3; linarith
  · norm_num at h1 h2 h3; linarith

theorem lowerRight_interior (x y : ℚ) (h : lowerRight.interior ⟨x, y⟩) : y < x := by
  simp only [Triangle.interior, edgeFunction, lowerRight] at h
  rcases h with ⟨h1, h2, h3⟩ | ⟨h1, h2, h3⟩
  · norm_num at h1 h2 h3; linarith
  · norm_num at h1 h2 h3; linarith

/-- C3: the index list of `main` read as a triangle list over the vertices of
`main` is exactly the two triangles (v0,v1,v2) and (v3,v2,v1); they share the
edge v1-v2; every point of the square [-1,1] x [-1,1] lies in at least one of
them, every point of either lies in the square, no point lies in the interior
of both, and their areas sum to 4. -/
theorem square_is_two_triangles_tiling :
    (triangleList indices).map (assemble vertices) = [some upperLeft, some lowerRight] ∧
    (vertices[1]? = some upperLeft.b ∧ vertices[1]? = some lowerRight.c ∧
     vertices[2]? = some upperLeft.c ∧ vertices[2]? = some lowerRight.b) ∧
    (∀ p : Vec2, inSquare p → upperLeft.contains p ∨ lowerRight.contains p) ∧
    (∀ p : Vec2, upperLeft.contains p ∨ lowerRight.contains p → inSquare p) ∧
    (∀ p : Vec2, ¬ (upperLeft.interior p ∧ lowerRight.interior p)) ∧
    upperLeft.area + lowerRight.area = 4 := by
  refine ⟨rfl, ⟨rfl, rfl, rfl, rfl⟩, ?_, ?_, ?_, ?_⟩
  · rintro ⟨x, y⟩ ⟨h1, h2, h3, h4⟩
    simp only at h1 h2 h3 h4
    rcases le_total x y with h | h
    · exact Or.inl ((upperLeft_contains x y).mpr ⟨h4, h, h1⟩)
    · exact Or.inr ((lowerRight_contains x y).mpr ⟨h3, h, h2⟩)
  · rintro ⟨x, y⟩ (h | h)
    · obtain ⟨h1, h2, h3⟩ := (upperLeft_contains x y).mp h
      exact ⟨h3, by linarith, by linarith, h1⟩
    · obtain ⟨h1, h2, h3⟩ := (lowerRight_contains x y).mp h
      exact ⟨by linarith, h3, h1, by linarith⟩
  · rintro ⟨x, y⟩ ⟨hu, hl⟩
    have h1 := upperLeft_interior x y hu
    have h2 := lowerRight_interior x y hl
    linarith
  · simp only [Triangle.area, edgeFunction, upperLeft, lowerRight]
    norm_num [abs_of_nonneg, abs_of_nonpos]

/-! ## The main loop -/

theorem mainSetup_transform (env : Env) :
    (mainSetup env).transform = (env.transform.SetScale (1 / 4)).SetPosition ⟨1 / 4, 1 / 4⟩ := by
  simp [mainSetup]

@[simp]
theorem App_log_fields (a : App) (c : Call) :
    (a.log c).world = a.world.log c ∧ (a.log c).square = a.square ∧
    (a.log c).transform = a.transform ∧ (a.log c).shaderProgram = a.shaderProgram ∧
    (a.log c).uniformLocation = a.uniformLocation :=
  ⟨rfl, rfl, rfl, rfl, rfl⟩

theorem loopBody_fields (trig : Trig) (d : ℚ) (a : App) :
    (loopBody trig d a).transform = a.transform.Rotate (toFloat d) ∧
    (loopBody trig d a).square = a.square ∧
    (loopBody trig d a).shaderProgram = a.shaderProgram ∧
    (loopBody trig d a).uniformLocation = a.uniformLocation := by
  simp only [loopBody, and_self]

theorem loopBody_trace (trig : Trig) (d : ℚ) (a : App) :
    (loopBody trig d a).world.trace = a.world.trace ++ frameCalls trig a d := by
  simp [loopBody, frameCalls, Draw_trace, Shape.drawCalls]

theorem mainLoop_trace (trig : Trig) (ds : List ℚ) (a : App) :
    (mainLoop trig ds a).world.trace = a.world.trace ++ loopCalls trig a ds := by
  induction ds generalizing a with
  | nil => simp [mainLoop, loopCalls, App.log]
  | cons d rest ih =>
    rw [mainLoop, ih, loopBody_trace]
    simp [loopCalls, App.log, frameCalls]

theorem mainLoop_fields (trig : Trig) (ds : List ℚ) (a : App) :
    (mainLoop trig ds a).transform.rotation
      = a.transform.rotation + (ds.map toFloat).sum ∧
    (mainLoop trig ds a).square = a.square ∧
    (mainLoop trig ds a).shaderProgram = a.shaderProgram ∧
    (mainLoop trig ds a).uniformLocation = a.uniformLocation := by
  induction ds generalizing a with
  | nil => simp [mainLoop, App.log]
  | cons d rest ih =>
    rw [mainLoop]
    obtain ⟨h1, h2, h3, h4⟩ := ih (loopBody trig d (a.log (.glfwWindowShouldClose false)))
    rw [h1, h2, h3, h4]
    simp [loopBody_fields, App.log, Transform2D.Rotate, add_assoc]

theorem loopCalls_rotate (trig : Trig) (ds : List ℚ) (a : App) :
    (loopCalls trig a ds).filterMap Call.rotateArg = ds.map toFloat ∧
    timerReads (loopCalls trig a ds) = ds.map (fun d => (d, some (.glfwSetTime 0))) := by
  induction ds generalizing a with
  | nil => simp [loopCalls, Call.rotateArg, timerReads]
  | cons d rest ih =>
    obtain ⟨h1, h2⟩ := ih (loopBody trig d (a.log (.glfwWindowShouldClose false)))
    constructor
    · simp [loopCalls, frameCalls, Shape.drawCalls, Call.rotateArg, h1]
    · simp [loopCalls, frameCalls, Shape.drawCalls, timerReads, h2]

/-- C4: with the scale 0.25 and position (0.25, 0.25) that `main` sets, a
default transform of rotation angle 0, and cos 0 = 1, sin 0 = 0, the vertex
shader applied to the world matrix and the local corner (1,1) computes
`transformed` = (0.5, 0.5, 1) and `gl_Position` = (0.5, 0.5, 1, 1). -/
theorem corner_maps_to_half (env : Env) (hrot : env.transform.rotation = 0)
    (hcos : env.trig.cos 0 = 1) (hsin : env.trig.sin 0 = 0) :
    vertexShaderMain ((mainSetup env).transform.GetMatrix env.trig) ⟨1, 1⟩
      = (⟨1 / 2, 1 / 2, 1⟩, ⟨1 / 2, 1 / 2, 1, 1⟩) := by
  rw [mainSetup_transform]
  simp only [vertexShaderMain, Transform2D.GetMatrix, Transform2D.SetPosition,
    Transform2D.SetScale, hrot, hcos, hsin, translate, rotate, scaleMatrix, Mat3.mul,
    Mat3.mulVec]
  norm_num

/-- Witness for C4: the sample environment. -/
theorem corner_maps_to_half_witness :
    sampleEnv.transform.rotation = 0 ∧ sampleEnv.trig.cos 0 = 1 ∧ sampleEnv.trig.sin 0 = 0 ∧
    vertexShaderMain ((mainSetup sampleEnv).transform.GetMatrix sampleEnv.trig) ⟨1, 1⟩
      = (⟨1 / 2, 1 / 2, 1⟩, ⟨1 / 2, 1 / 2, 1, 1⟩) :=
  ⟨rfl, by simp [sampleEnv], rfl,
    corner_maps_to_half sampleEnv rfl (by simp [sampleEnv]) rfl⟩

/-- C5 (amended): in a run of the main loop whose frames read the timer values
`ds`, the calls the loop appends to the trace contain exactly one `Rotate` per
frame, in frame order, whose argument is the timer value read in that frame
narrowed to `float`; every timer read is immediately followed by
`glfwSetTime(0)`; the rotation angle after the loop is the angle before it plus
the sum of the narrowed values; any reordering of `ds` gives the same final
angle; and when every value of `ds` is a `float` the arguments are `ds` and the
angle is the angle before the loop plus the sum of `ds`. -/
theorem rotation_is_sum_of_float_deltas (trig : Trig) (ds : List ℚ) (a : App) :
    ((mainLoop trig ds a).world.trace.drop a.world.trace.length).filterMap Call.rotateArg
      = ds.map toFloat ∧
    timerReads ((mainLoop trig ds a).world.trace.drop a.world.trace.length)
      = ds.map (fun d => (d, some (.glfwSetTime 0))) ∧
    (mainLoop trig ds a).transform.rotation = a.transform.rotation + (ds.map toFloat).sum ∧
    (∀ ds' : List ℚ, ds.Perm ds' →
      (mainLoop trig ds' a).transform.rotation = (mainLoop trig ds a).transform.rotation) ∧
    ((∀ d ∈ ds, toFloat d = d) →
      ((mainLoop trig ds a).world.trace.drop a.world.trace.length).filterMap Call.rotateArg
        = ds ∧
      (mainLoop trig ds a).transform.rotation = a.transform.rotation + ds.sum) := by
  have ht : (mainLoop trig ds a).world.trace.drop a.world.trace.length = loopCalls trig a ds := by
    rw [mainLoop_trace]; simp
  rw [ht]
  refine ⟨(loopCalls_rotate trig ds a).1, (loopCalls_rotate trig ds a).2,
    (mainLoop_fields trig ds a).1, ?_, ?_⟩
  · intro ds' hp
    rw [(mainLoop_fields trig ds a).1, (mainLoop_fields trig ds' a).1, (hp.map toFloat).sum_eq]
  · intro hrep
    have hm : ds.map toFloat = ds := by
      conv_rhs => rw [← List.map_id ds]
      exact List.map_congr_left (fun d hd => by simpa using hrep d hd)
    rw [(loopCalls_rotate trig ds a).1, (mainLoop_fields trig ds a).1, hm]
    exact ⟨rfl, rfl⟩

/-- Witness for C5 (amended): two frames reading 1 and 2, both of which are
`float` values, starting from the state `main` enters the loop with. -/
theorem rotation_is_sum_of_float_deltas_witness :
    (∀ d ∈ [(1 : ℚ), 2], toFloat d = d) ∧
    ((mainLoop sampleEnv.trig [1, 2] (mainSetup sampleEnv)).world.trace.drop
        (mainSetup sampleEnv).world.trace.length).filterMap Call.rotateArg = [1, 2] ∧
    (mainLoop sampleEnv.trig [1, 2] (mainSetup sampleEnv)).transform.rotation
      = (mainSetup sampleEnv).transform.rotation + [(1 : ℚ), 2].sum := by
  have hrep : ∀ d ∈ [(1 : ℚ), 2], toFloat d = d := by
    intro d hd
    simp only [List.mem_cons, List.mem_singleton, List.not_mem_nil, or_false] at hd
    rcases hd with h | h <;> subst h
    · exact toFloat_one
    · exact toFloat_two
  exact ⟨hrep,
    (rotation_is_sum_of_float_deltas sampleEnv.trig [1, 2] (mainSetup sampleEnv)).2.2.2.2 hrep⟩

/-- C5 (counterexample): in a one-frame run of `main` whose timer reads 1/10,
`Rotate` is called with 13421773/134217728, not with 1/10, and the rotation
angle after the loop is the angle before it plus 13421773/134217728, not plus
1/10. -/
theorem rotate_argument_counterexample :
    ((mainLoop sampleEnv.trig [1 / 10] (mainSetup sampleEnv)).world.trace.drop
        (mainSetup sampleEnv).world.trace.length).filterMap Call.rotateArg
      = [13421773 / 134217728] ∧
    ((mainLoop sampleEnv.trig [1 / 10] (mainSetup sampleEnv)).world.trace.drop
        (mainSetup sampleEnv).world.trace.length).filterMap Call.rotateArg
      ≠ [1 / 10] ∧
    (mainLoop sampleEnv.trig [1 / 10] (mainSetup sampleEnv)).transform.rotation
      = (mainSetup sampleEnv).transform.rotation + 13421773 / 134217728 ∧
    (mainLoop sampleEnv.trig [1 / 10] (mainSetup sampleEnv)).transform.rotation
      ≠ (mainSetup sampleEnv).transform.rotation + [(1 / 10 : ℚ)].sum := by
  have ht : (mainLoop sampleEnv.trig [1 / 10] (mainSetup sampleEnv)).world.trace.drop
      (mainSetup sampleEnv).world.trace.length
        = loopCalls sampleEnv.trig (mainSetup sampleEnv) [1 / 10] := by
    rw [mainLoop_trace]; simp
  have ha := (loopCalls_rotate sampleEnv.trig [1 / 10] (mainSetup sampleEnv)).1
  have hr := (mainLoop_fields sampleEnv.trig [1 / 10] (mainSetup sampleEnv)).1
  simp only [List.map_cons, List.map_nil, toFloat_tenth, List.sum_cons, List.sum_nil,
    add_zero] at ha hr
  rw [ht, ha, hr]
  refine ⟨rfl, ?_, rfl, ?_⟩
  · norm_num
  · norm_num

theorem loopBody_draws (trig : Trig) (d : ℚ) (a : App) :
    (loopBody trig d a).world.draws = a.world.draws ++
      (if toGLsizei (toSizeT a.square.m_indices.length) < 0 then []
       else [⟨a.shaderProgram, a.square.m_indexBuffer, a.square.m_vertexBuffer, true,
              some (toGLint a.uniformLocation, (a.transform.Rotate (toFloat d)).GetMatrix trig),
              .GL_TRIANGLES, toGLsizei (toSizeT a.square.m_indices.length)⟩]) ∧
    (loopBody trig d a).world.currentProgram = 0 ∧
    (loopBody trig d a).world.uploads = a.world.uploads := by
  refine ⟨?_, ?_, ?_⟩
  · simp only [loopBody, Shape.Draw]
    simp only [glUseProgram_effect, log_effect, glBindBuffer_element_effect,
      glBindBuffer_array_effect, glDisableVertexAttribArray_effect, glDrawElements_effect,
      glEnableVertexAttribArray_effect, glUniformMatrix3fv_effect,
      glVertexAttribPointer_effect]
    split <;> simp
  · simp [loopBody]
  · simp [loopBody, Draw_frame]

/-- C6: one iteration of the main loop appends to the trace, in this order:
the timer read, the timer reset, `glClear`, `glClearColor`, `Rotate(dt)` with
`dt` the reading narrowed to `float`,
`glUseProgram(shaderProgram)`, `GetMatrix`, the nine calls of `Shape::Draw` with
the matrix of the already rotated transform and the cached uniform location,
`glUseProgram(0)`, the buffer swap and the event poll; the sequence of the
specification is a subsequence of it; it holds exactly one `glDrawElements`,
before which the current program is `shaderProgram`; and the draw issued is
recorded with program `shaderProgram` and the matrix that includes this
frame's increment. -/
theorem frame_sequence (trig : Trig) (d : ℚ) (a : App) :
    (loopBody trig d a).world.trace = a.world.trace ++ frameCalls trig a d ∧
    List.Sublist
      ([ .glfwGetTime d, .glfwSetTime 0, .glClear GL_COLOR_BUFFER_BIT,
         .Rotate (toFloat d),
         .glUseProgram a.shaderProgram ] ++
       a.square.drawCalls ((a.transform.Rotate (toFloat d)).GetMatrix trig) a.uniformLocation ++
       [ .glUseProgram 0, .glfwSwapBuffers, .glfwPollEvents ])
      (frameCalls trig a d) ∧
    (frameCalls trig a d).countP Call.isDrawElements = 1 ∧
    (∀ p0 : Nat,
      currentProgramAfter p0 ((frameCalls trig a d).takeWhile (fun c => !c.isDrawElements))
        = a.shaderProgram) ∧
    (loopBody trig d a).world.draws = a.world.draws ++
      (if toGLsizei (toSizeT a.square.m_indices.length) < 0 then []
       else [⟨a.shaderProgram, a.square.m_indexBuffer, a.square.m_vertexBuffer, true,
              some (toGLint a.uniformLocation, (a.transform.Rotate (toFloat d)).GetMatrix trig),
              .GL_TRIANGLES, toGLsizei (toSizeT a.square.m_indices.length)⟩]) ∧
    (loopBody trig d a).transform = a.transform.Rotate (toFloat d) := by
  refine ⟨loopBody_trace trig d a, ?_, ?_, ?_, (loopBody_draws trig d a).1,
    (loopBody_fields trig d a).1⟩
  · unfold frameCalls
    refine List.Sublist.append (List.Sublist.append ?_ (List.Sublist.refl _))
      (List.Sublist.refl _)
    exact .cons₂ _ (.cons₂ _ (.cons₂ _ (.cons _ (.cons₂ _ (.cons₂ _ (.cons _ .slnil))))))
  · simp [frameCalls, Shape.drawCalls, Call.isDrawElements]
  · intro p0
    simp [frameCalls, Shape.drawCalls, Call.isDrawElements, List.takeWhile,
      currentProgramAfter]

/-! ## The whole run of main -/

theorem main_sizes :
    toGLsizeiptr (toSizeT (toSizeT vertices.length * sizeofVec2)) = 32 ∧
    toGLsizeiptr (toSizeT (toSizeT indices.length * sizeofUInt)) = 24 := by
  have h := ctor_sizes vertices indices
    (by simp [vertices, vectorMaxSize, sizeofVec2]) (by simp [indices, vectorMaxSize, sizeofUInt])
  simpa [vertices, indices] using h

theorem freshName_values : freshName [] = 1 ∧ freshName [1] = 2 := by
  simp [freshName]

theorem mainSetup_fields (env : Env) :
    (mainSetup env).square = ⟨vertices, indices, 1, 2⟩ ∧
    (mainSetup env).shaderProgram = env.program ∧
    (mainSetup env).uniformLocation = toGLuint env.location := by
  simp [mainSetup, ctor_fst, World.initial, freshName_values]

theorem mainSetup_trace (env : Env) :
    (mainSetup env).world.trace =
      [ .glfwInit, .glfwCreateWindow 800 600 "Vertex Shaders", .glfwMakeContextCurrent,
        .glfwSetFramebufferSizeCallback, .glewInit,
        .glGenBuffers 1 1, .glBindBuffer .GL_ARRAY_BUFFER 1,
        .glBufferData .GL_ARRAY_BUFFER 32 (.vec2s vertices) .GL_STATIC_DRAW,
        .glBindBuffer .GL_ARRAY_BUFFER 0,
        .glGenBuffers 1 2, .glBindBuffer .GL_ARRAY_BUFFER 2,
        .glBufferData .GL_ARRAY_BUFFER 24 (.uints indices) .GL_STATIC_DRAW,
        .glBindBuffer .GL_ARRAY_BUFFER 0,
        .SetScale (1 / 4), .SetPosition ⟨1 / 4, 1 / 4⟩,
        .InitFromString .vertexShader vertexShaderCode .GL_VERTEX_SHADER,
        .InitFromFile .fragmentShader "../shaders/fragment.glsl" .GL_FRAGMENT_SHADER,
        .glCreateProgram env.program,
        .AttachTo .vertexShader env.program, .AttachTo .fragmentShader env.program,
        .glLinkProgram env.program,
        .glGetUniformLocation env.program "worldMatrix" env.location ] := by
  simp only [mainSetup, log_effect, ctor_trace, ctor_fst, main_sizes]
  simp [World.initial, freshName_values]

theorem mainSetup_uploads (env : Env) :
    (mainSetup env).world.uploads 1 = some ⟨32, .GL_STATIC_DRAW, .vec2s vertices⟩ ∧
    (mainSetup env).world.uploads 2 = some ⟨24, .GL_STATIC_DRAW, .uints indices⟩ := by
  have hV : vertices.length ≤ vectorMaxSize sizeofVec2 := by
    simp [vertices, vectorMaxSize, sizeofVec2]
  have hI : indices.length ≤ vectorMaxSize sizeofUInt := by
    simp [indices, vectorMaxSize, sizeofUInt]
  simp only [mainSetup, log_effect]
  rw [(ctor_uploads _ _ _ hV hI).1]
  simp only [log_effect, World.initial, freshName_values]
  constructor
  · simp [Function.update, vertices, freshName]
  · simp [Function.update, indices, freshName]

theorem main_trace (env : Env) :
    (main env).1.world.trace = (mainSetup env).world.trace ++
      loopCalls env.trig (mainSetup env) env.deltas ++
      [ .glDeleteProgram env.program, .glDeleteBuffers 1 1, .glDeleteBuffers 1 2,
        .glfwTerminate ] ∧
    (main env).2 = 0 := by
  simp [main, mainTeardown, Shape.dtor, mainLoop_trace, mainLoop_fields, mainSetup_fields]

theorem loopCalls_uniform (trig : Trig) (ds : List ℚ) (a : App) :
    (loopCalls trig a ds).filterMap Call.uniformLocation
      = List.replicate ds.length (toGLint a.uniformLocation) ∧
    (loopCalls trig a ds).countP Call.isGetUniformLocation = 0 ∧
    (loopCalls trig a ds).filter Call.isBufferData = [] ∧
    (loopCalls trig a ds).filter Call.isDrawElements
      = List.replicate ds.length
          (.glDrawElements .GL_TRIANGLES (toGLsizei (toSizeT a.square.m_indices.length))
            .GL_UNSIGNED_INT 0) := by
  induction ds generalizing a with
  | nil =>
    simp [loopCalls, Call.uniformLocation, Call.isGetUniformLocation, Call.isBufferData,
      Call.isDrawElements]
  | cons d rest ih =>
    obtain ⟨h1, h2, h3, h4⟩ := ih (loopBody trig d (a.log (.glfwWindowShouldClose false)))
    simp only [loopBody_fields, App_log_fields] at h1 h4
    refine ⟨?_, ?_, ?_, ?_⟩
    · simp [loopCalls, frameCalls, Shape.drawCalls, Call.uniformLocation, h1,
        List.replicate_succ]
    · simp [loopCalls, frameCalls, Shape.drawCalls, Call.isGetUniformLocation, h2]
    · simp [loopCalls, frameCalls, Shape.drawCalls, Call.isBufferData, h3]
    · simp [loopCalls, frameCalls, Shape.drawCalls, Call.isDrawElements, h4,
        List.replicate_succ]

theorem mainLoop_uploads (trig : Trig) (ds : List ℚ) (a : App) :
    (mainLoop trig ds a).world.uploads = a.world.uploads := by
  induction ds generalizing a with
  | nil => simp [mainLoop, App.log]
  | cons d rest ih =>
    rw [mainLoop, ih, (loopBody_draws trig d _).2.2]
    simp [App.log]

theorem toGLint_toGLuint (r : Int) (hlo : -2 ^ 31 ≤ r) (hhi : r < 2 ^ 31) :
    toGLint (toGLuint r) = r := by
  unfold toGLint toGLuint wrapSigned
  have h : ((r % 2 ^ 32).toNat : Int) = r % 2 ^ 32 :=
    Int.toNat_of_nonneg (Int.emod_nonneg _ (by norm_num))
  rw [h]
  omega

/-- C7: for every value r that `glGetUniformLocation` can return as a signed
32-bit integer, the whole run of `main` queries the location of "worldMatrix"
exactly once, as the last call of the setup, directly after the two `AttachTo`
calls and `glLinkProgram`; every `glUniformMatrix3fv` call of the run, one per
frame, is passed the location r; and converting r to `GLuint` and back to
`GLint` gives r. -/
theorem uniform_location_round_trip (env : Env)
    (hlo : -2 ^ 31 ≤ env.location) (hhi : env.location < 2 ^ 31) :
    (main env).1.world.trace.countP Call.isGetUniformLocation = 1 ∧
    List.IsSuffix
      [ .AttachTo .vertexShader env.program, .AttachTo .fragmentShader env.program,
        .glLinkProgram env.program,
        .glGetUniformLocation env.program "worldMatrix" env.location ]
      (mainSetup env).world.trace ∧
    List.IsPrefix (mainSetup env).world.trace (main env).1.world.trace ∧
    (main env).1.world.trace.filterMap Call.uniformLocation
      = List.replicate env.deltas.length env.location ∧
    toGLint (toGLuint env.location) = env.location := by
  have hr := toGLint_toGLuint env.location hlo hhi
  obtain ⟨h1, h2, _, _⟩ := loopCalls_uniform env.trig env.deltas (mainSetup env)
  rw [(mainSetup_fields env).2.2, hr] at h1
  refine ⟨?_, ?_, ?_, ?_, hr⟩
  · rw [(main_trace env).1, List.countP_append, List.countP_append, h2, mainSetup_trace]
    simp [Call.isGetUniformLocation]
  · rw [mainSetup_trace]
    exact ⟨[ .glfwInit, .glfwCreateWindow 800 600 "Vertex Shaders", .glfwMakeContextCurrent,
        .glfwSetFramebufferSizeCallback, .glewInit,
        .glGenBuffers 1 1, .glBindBuffer .GL_ARRAY_BUFFER 1,
        .glBufferData .GL_ARRAY_BUFFER 32 (.vec2s vertices) .GL_STATIC_DRAW,
        .glBindBuffer .GL_ARRAY_BUFFER 0,
        .glGenBuffers 1 2, .glBindBuffer .GL_ARRAY_BUFFER 2,
        .glBufferData .GL_ARRAY_BUFFER 24 (.uints indices) .GL_STATIC_DRAW,
        .glBindBuffer .GL_ARRAY_BUFFER 0,
        .SetScale (1 / 4), .SetPosition ⟨1 / 4, 1 / 4⟩,
        .InitFromString .vertexShader vertexShaderCode .GL_VERTEX_SHADER,
        .InitFromFile .fragmentShader "../shaders/fragment.glsl" .GL_FRAGMENT_SHADER,
        .glCreateProgram env.program ], rfl⟩
  · rw [(main_trace env).1, List.append_assoc]
    exact List.prefix_append _ _
  · rw [(main_trace env).1, List.filterMap_append, List.filterMap_append, h1, mainSetup_trace]
    simp [Call.uniformLocation]

/-- Witness for C7: the query returns the not-found value -1 and the loop runs
two frames. -/
theorem uniform_location_round_trip_witness :
    -2 ^ 31 ≤ sampleEnv.location ∧ sampleEnv.location < 2 ^ 31 ∧
    toGLuint sampleEnv.location = 4294967295 ∧
    toGLint (toGLuint sampleEnv.location) = -1 ∧
    (main sampleEnv).1.world.trace.filterMap Call.uniformLocation = [-1, -1] := by
  have hlo : -2 ^ 31 ≤ sampleEnv.location := by simp [sampleEnv]
  have hhi : sampleEnv.location < 2 ^ 31 := by simp [sampleEnv]
  have h := uniform_location_round_trip sampleEnv hlo hhi
  refine ⟨hlo, hhi, by decide, h.2.2.2.2, ?_⟩
  simpa [sampleEnv] using h.2.2.2.1

/-- C8: in every run of `main`, after any number of frames, the Shape that the
loop draws holds the six indices and four vertices built in `main`, every index
is strictly less than the number of vertices, the lookup of every index in the
vertex list succeeds, and every `glDrawElements` call of the run draws exactly
those six indices. -/
theorem square_indices_in_range (env : Env) (ds : List ℚ) :
    (mainLoop env.trig ds (mainSetup env)).square.m_indices = [0, 1, 2, 3, 2, 1] ∧
    (mainLoop env.trig ds (mainSetup env)).square.m_vertices.length = 4 ∧
    (∀ i ∈ (mainLoop env.trig ds (mainSetup env)).square.m_indices,
      i < (mainLoop env.trig ds (mainSetup env)).square.m_vertices.length ∧
      (mainLoop env.trig ds (mainSetup env)).square.m_vertices[i]? ≠ none) ∧
    (main env).1.world.trace.filter Call.isDrawElements
      = List.replicate env.deltas.length
          (.glDrawElements .GL_TRIANGLES 6 .GL_UNSIGNED_INT 0) := by
  have hs : (mainLoop env.trig ds (mainSetup env)).square = ⟨vertices, indices, 1, 2⟩ := by
    rw [(mainLoop_fields env.trig ds (mainSetup env)).2.1, (mainSetup_fields env).1]
  have hc : toGLsizei (toSizeT (mainSetup env).square.m_indices.length) = 6 := by
    rw [(mainSetup_fields env).1]
    exact toGLsizei_small 6 (by norm_num)
  rw [hs]
  refine ⟨rfl, rfl, ?_, ?_⟩
  · intro i hi
    simp only [indices, List.mem_cons, List.mem_singleton, List.not_mem_nil, or_false] at hi
    rcases hi with h | h | h | h | h | h <;> subst h <;> simp [vertices]
  · obtain ⟨_, _, _, h4⟩ := loopCalls_uniform env.trig env.deltas (mainSetup env)
    rw [(main_trace env).1, List.filter_append, List.filter_append, h4, hc, mainSetup_trace]
    simp [Call.isDrawElements]

/-- C9: `Shape::Draw` leaves the uploaded contents and sizes of every buffer and
the set of buffer names unchanged and makes no `glBufferData` call; the
constructor makes exactly two; the only `glBufferData` calls of a whole run of
`main` are the two of the constructor, one per buffer; and after any number of
frames the Shape still holds the vertices, indices and handles given at
construction and both buffers still hold the data uploaded then. -/
theorem geometry_is_immutable :
    (∀ (s : Shape) (M : Mat3) (L : Nat) (w : World),
      (s.Draw M L w).uploads = w.uploads ∧ (s.Draw M L w).bufferNames = w.bufferNames ∧
      ((s.Draw M L w).trace.drop w.trace.length).countP Call.isBufferData = 0) ∧
    (∀ (V : List Vec2) (I : List Nat) (w : World),
      ((Shape.ctor V I w).2.trace.drop w.trace.length).countP Call.isBufferData = 2) ∧
    (∀ env : Env,
      (main env).1.world.trace.filter Call.isBufferData
        = [ .glBufferData .GL_ARRAY_BUFFER 32 (.vec2s vertices) .GL_STATIC_DRAW,
            .glBufferData .GL_ARRAY_BUFFER 24 (.uints indices) .GL_STATIC_DRAW ]) ∧
    (∀ (env : Env) (ds : List ℚ),
      (mainLoop env.trig ds (mainSetup env)).square = ⟨vertices, indices, 1, 2⟩ ∧
      (mainLoop env.trig ds (mainSetup env)).world.uploads 1
        = some ⟨32, .GL_STATIC_DRAW, .vec2s vertices⟩ ∧
      (mainLoop env.trig ds (mainSetup env)).world.uploads 2
        = some ⟨24, .GL_STATIC_DRAW, .uints indices⟩) := by
  refine ⟨?_, ?_, ?_, ?_⟩
  · intro s M L w
    refine ⟨(Draw_frame s M L w).1, (Draw_frame s M L w).2.1, ?_⟩
    rw [Draw_trace]
    simp [Shape.drawCalls, Call.isBufferData]
  · intro V I w
    rw [ctor_trace]
    simp [Call.isBufferData]
  · intro env
    obtain ⟨_, _, h3, _⟩ := loopCalls_uniform env.trig env.deltas (mainSetup env)
    rw [(main_trace env).1, List.filter_append, List.filter_append, h3, mainSetup_trace]
    simp [Call.isBufferData]
  · intro env ds
    rw [(mainLoop_fields env.trig ds (mainSetup env)).2.1, (mainSetup_fields env).1,
      mainLoop_uploads]
    exact ⟨rfl, mainSetup_uploads env⟩

/-- C10: the constructor binds the index buffer to `GL_ARRAY_BUFFER` and uploads
the indices through `GL_ARRAY_BUFFER`, and binds nothing to
`GL_ELEMENT_ARRAY_BUFFER`; `Shape::Draw` binds the same index buffer to
`GL_ELEMENT_ARRAY_BUFFER`; in a run of `main` nothing is bound to
`GL_ELEMENT_ARRAY_BUFFER` during the setup nor in the part of a frame that
precedes `Draw`; and the two targets differ. -/
theorem index_buffer_targets_differ (V : List Vec2) (I : List Nat) (w : World) :
    (Shape.ctor V I w).2.trace.drop w.trace.length =
      [ .glGenBuffers 1 (Shape.ctor V I w).1.m_vertexBuffer,
        .glBindBuffer .GL_ARRAY_BUFFER (Shape.ctor V I w).1.m_vertexBuffer,
        .glBufferData .GL_ARRAY_BUFFER
          (toGLsizeiptr (toSizeT (toSizeT V.length * sizeofVec2))) (.vec2s V) .GL_STATIC_DRAW,
        .glBindBuffer .GL_ARRAY_BUFFER 0,
        .glGenBuffers 1 (Shape.ctor V I w).1.m_indexBuffer,
        .glBindBuffer .GL_ARRAY_BUFFER (Shape.ctor V I w).1.m_indexBuffer,
        .glBufferData .GL_ARRAY_BUFFER
          (toGLsizeiptr (toSizeT (toSizeT I.length * sizeofUInt))) (.uints I) .GL_STATIC_DRAW,
        .glBindBuffer .GL_ARRAY_BUFFER 0 ] ∧
    ((Shape.ctor V I w).2.trace.drop w.trace.length).any Call.isElementBind = false ∧
    (∀ (M : Mat3) (L : Nat) (w' : World),
      (((Shape.ctor V I w).1.Draw M L w').trace.drop w'.trace.length).filter
          (fun c => c.isElementBind)
        = [ .glBindBuffer .GL_ELEMENT_ARRAY_BUFFER (Shape.ctor V I w).1.m_indexBuffer,
            .glBindBuffer .GL_ELEMENT_ARRAY_BUFFER 0 ]) ∧
    (∀ (env : Env) (d : ℚ) (a : App),
      (mainSetup env).world.trace.any Call.isElementBind = false ∧
      ((frameCalls env.trig a d).take 7).any Call.isElementBind = false ∧
      (frameCalls env.trig a d).drop 7 =
        a.square.drawCalls ((a.transform.Rotate (toFloat d)).GetMatrix env.trig) a.uniformLocation ++
          [ .glUseProgram 0, .glfwSwapBuffers, .glfwPollEvents ]) ∧
    BufferTarget.GL_ARRAY_BUFFER ≠ BufferTarget.GL_ELEMENT_ARRAY_BUFFER := by
  have ht : (Shape.ctor V I w).2.trace.drop w.trace.length =
      [ .glGenBuffers 1 (Shape.ctor V I w).1.m_vertexBuffer,
        .glBindBuffer .GL_ARRAY_BUFFER (Shape.ctor V I w).1.m_vertexBuffer,
        .glBufferData .GL_ARRAY_BUFFER
          (toGLsizeiptr (toSizeT (toSizeT V.length * sizeofVec2))) (.vec2s V) .GL_STATIC_DRAW,
        .glBindBuffer .GL_ARRAY_BUFFER 0,
        .glGenBuffers 1 (Shape.ctor V I w).1.m_indexBuffer,
        .glBindBuffer .GL_ARRAY_BUFFER (Shape.ctor V I w).1.m_indexBuffer,
        .glBufferData .GL_ARRAY_BUFFER
          (toGLsizeiptr (toSizeT (toSizeT I.length * sizeofUInt))) (.uints I) .GL_STATIC_DRAW,
        .glBindBuffer .GL_ARRAY_BUFFER 0 ] := by
    rw [ctor_trace]; simp
  refine ⟨ht, ?_, ?_, ?_, by decide⟩
  · rw [ht]; simp [Call.isElementBind]
  · intro M L w'
    rw [Draw_trace]
    simp [Shape.drawCalls, Call.isElementBind]
  · intro env d a
    refine ⟨?_, ?_, ?_⟩
    · rw [mainSetup_trace]; simp [Call.isElementBind]
    · simp [frameCalls, Call.isElementBind]
    · simp [frameCalls]

end VertexShaders
